import Mathlib

/-!
Verification of the real-time incident-triage service (`backend/main.py`,
`backend/database.py`) against its specification.

The embedding models the three routine bodies the claims are about:

* `ConnectionManager` (`disconnect`, `broadcast`) — the subscriber registry.
  Subscriber handles (Python `WebSocket` objects) are modelled as `Nat`.
  `broadcast` is modelled by a small-step machine (`bStep`/`bRun`/`bFinish`)
  that follows Python's index-based list iteration exactly: the loop
  `for connection in self.active_connections` reads the live list by index,
  so the machine also admits `register` events interleaved between delivery
  steps (each `await connection.send_text` is a suspension point at which the
  `/ws` endpoint's `connect` may append to the list).  Per-connection send
  success is an oracle `send : Nat → Bool`; a `False` result models the bare
  `except:` catching the raised exception.
* `predict_log` — the submit pipeline.  External effects (the scikit-learn
  classifier, `random.choice`, `datetime.utcnow`, the SQLAlchemy commit, the
  Redis handle and `r.set`, per-subscriber sends) are oracles collected in
  `Env`; the database is a list of rows plus the autoincrement counter.
  `HTTPException` carries the status code and detail string exactly as raised
  by the code (`500 "Prediction failed"` for classifier failure,
  `500 "Database error"` for store failure).
* `get_logs` — the read side: `ORDER BY id DESC LIMIT 50` is modelled by
  sorting the rows by descending `id` and taking 50, then projecting each row
  to the response dictionary (`projectLog`).

Python floats are idealised as `ℚ`; `round(x, 2)` is modelled by `round2`,
built on exact round-half-to-even (`roundHalfEven`), Python's rounding mode.
-/

/-- One row of the `incidents` table (`database.py`, class `Incident`). -/
structure Incident where
  id : Nat
  message : String
  priority : String
  source_service : String
  confidence_score : ℚ
  resolved : Nat
  timestamp : String
deriving DecidableEq, Repr

/-- The incident store: the table rows in insertion order plus the
autoincrement counter that assigns the next primary key. -/
structure Store where
  rows : List Incident
  nextId : Nat
deriving DecidableEq, Repr

/-- The `response_data` dictionary built by `predict_log` on success. -/
structure ResponseData where
  id : Nat
  message : String
  priority : String
  confidence : ℚ
  source : String
  timestamp : String
deriving DecidableEq, Repr

/-- The JSON body returned by `predict_log`:
`\x7b"status": "success", "data": response_data\x7d`. -/
structure PredictResponse where
  status : String
  data : ResponseData
deriving DecidableEq, Repr

/-- A raised `fastapi.HTTPException`, carrying its status code and detail. -/
structure HTTPException where
  status_code : Nat
  detail : String
deriving DecidableEq, Repr

/-- Whole-server mutable state touched by the handlers: the incident store,
the Redis `latest_incident` slot, and `manager.active_connections`. -/
structure ServerState where
  store : Store
  cache : Option String
  conns : List Nat
deriving DecidableEq, Repr

/-- Exact round-half-to-even on `ℚ` (Python's `round` tie-breaking rule). -/
def roundHalfEven (q : ℚ) : ℤ :=
  let f : ℤ := ⌊q⌋
  let frac : ℚ := q - (f : ℚ)
  if frac < 1/2 then f
  else if 1/2 < frac then f + 1
  else if f % 2 = 0 then f else f + 1

/-- Python's `round(q, 2)`. -/
def round2 (q : ℚ) : ℚ := (roundHalfEven (q * 100) : ℚ) / 100

/-- `json.dumps(response_data)` (key order as in the source dictionary). -/
def serialize (rd : ResponseData) : String :=
  "\x7b\"id\": " ++ toString rd.id ++
  ", \"message\": \"" ++ rd.message ++
  "\", \"priority\": \"" ++ rd.priority ++
  "\", \"confidence\": " ++ toString rd.confidence ++
  ", \"source\": \"" ++ rd.source ++
  "\", \"timestamp\": \"" ++ rd.timestamp ++ "\"\x7d"

/-- `ConnectionManager.disconnect`: remove the handle if (and only if) it is
present; `list.remove` drops the first occurrence. -/
def disconnect (w : Nat) (conns : List Nat) : List Nat :=
  if w ∈ conns then conns.erase w else conns

/-- An event during a broadcast pass: one delivery step of the loop itself, or
a concurrent `connect` appending a new subscriber during an awaited send. -/
inductive BEvent where
  | deliver : BEvent
  | register : Nat → BEvent
deriving DecidableEq, Repr

/-- State of a broadcast pass in progress: the live list
(`self.active_connections`), the Python iterator index, the `disconnected`
accumulator, and the (ghost) list of successful deliveries. -/
structure BState where
  conns : List Nat
  idx : Nat
  disconnected : List Nat
  delivered : List Nat
deriving DecidableEq, Repr

/-- One step: `register` appends to the live list (what
`ConnectionManager.connect` does); `deliver` is one iteration of the `for`
loop — read the element at the current index from the *live* list, attempt
the send, and on failure append the connection to `disconnected`. -/
def bStep (send : Nat → Bool) (st : BState) : BEvent → BState
  | BEvent.register w => { st with conns := st.conns ++ [w] }
  | BEvent.deliver =>
    if h : st.idx < st.conns.length then
      let c := st.conns.get ⟨st.idx, h⟩
      if send c then
        { st with idx := st.idx + 1, delivered := st.delivered ++ [c] }
      else
        { st with idx := st.idx + 1, disconnected := st.disconnected ++ [c] }
    else st

/-- Run a schedule of interleaved events. -/
def bRun (send : Nat → Bool) (events : List BEvent) (st : BState) : BState :=
  events.foldl (bStep send) st

/-- The reconcile phase after the loop:
`for conn in disconnected: self.disconnect(conn)`. -/
def bFinish (st : BState) : BState :=
  { st with conns := st.disconnected.foldl (fun cs c => disconnect c cs) st.conns }

/-- `ConnectionManager.broadcast` when no other coroutine runs during the
pass: the loop performs exactly `conns.length` delivery steps, then the
collected failures are disconnected. -/
def broadcast (send : Nat → Bool) (conns : List Nat) : BState :=
  bFinish (bRun send (List.replicate conns.length BEvent.deliver) ⟨conns, 0, [], []⟩)

/-- The effect oracles consumed by one `predict_log` call: the classifier
(`None` models a raised exception), the `random.choice` pick, the UTC
timestamp, whether `db.commit` succeeds, whether the Redis handle `r` is
non-`None`, whether `r.set` succeeds, and per-connection send success. -/
structure Env where
  classify : String → Option (String × ℚ)
  source : String
  timestamp : String
  storeOk : Bool
  redisAvailable : Bool
  cacheOk : Bool
  send : Nat → Bool

/-- Everything observable about one `predict_log` call: the state it leaves
behind, the message handed to `broadcast` (if reached), the connections that
received it, and the returned body or raised `HTTPException`. -/
structure PredictOutcome where
  state : ServerState
  broadcastMsg : Option String
  delivered : List Nat
  result : Except HTTPException PredictResponse

/-- The `/api/v1/predict` handler `predict_log`, step for step:
classify (abort with `500 "Prediction failed"` on exception); build the
`Incident` and commit (on exception roll back and abort with
`500 "Database error"`, so nothing later runs); build `response_data` with
the confidence rounded to 2 decimals; best-effort `r.set` (only if `r` is
set, failure swallowed); `manager.broadcast`; return the success body. -/
def predict_log (env : Env) (st : ServerState) (message : String) : PredictOutcome :=
  match env.classify message with
  | none => ⟨st, none, [], Except.error ⟨500, "Prediction failed"⟩⟩
  | some (prediction, confidence) =>
    if env.storeOk then
      let new_incident : Incident :=
        ⟨st.store.nextId, message, prediction, env.source, confidence, 0, env.timestamp⟩
      let store2 : Store := ⟨st.store.rows ++ [new_incident], st.store.nextId + 1⟩
      let response_data : ResponseData :=
        ⟨new_incident.id, new_incident.message, prediction, round2 confidence,
          env.source, env.timestamp⟩
      let cache2 : Option String :=
        if env.redisAvailable && env.cacheOk then some (serialize response_data)
        else st.cache
      let b := broadcast env.send st.conns
      ⟨⟨store2, cache2, b.conns⟩, some (serialize response_data), b.delivered,
        Except.ok ⟨"success", response_data⟩⟩
    else
      ⟨st, none, [], Except.error ⟨500, "Database error"⟩⟩

/-- One element of the list returned by `/api/v1/logs`. -/
structure LogEntry where
  id : Nat
  message : String
  priority : String
  timestamp : String
  source : String
  confidence : ℚ
deriving DecidableEq, Repr

/-- The per-row response dictionary built inside `get_logs`. -/
def projectLog (i : Incident) : LogEntry :=
  ⟨i.id, i.message, i.priority, i.timestamp, i.source_service, i.confidence_score⟩

/-- `ORDER BY Incident.id DESC`. -/
def idDesc (a b : Incident) : Prop := b.id ≤ a.id

instance : DecidableRel idDesc := fun a b => Nat.decLe b.id a.id

instance : IsTotal Incident idDesc := ⟨fun a b => Nat.le_total b.id a.id⟩

instance : IsTrans Incident idDesc := ⟨fun _ _ _ hab hbc => le_trans hbc hab⟩

/-- The `/api/v1/logs` handler `get_logs`:
`db.query(Incident).order_by(Incident.id.desc()).limit(50).all()`, each row
projected to its response dictionary. -/
def get_logs (store : Store) : List LogEntry :=
  (((store.rows.insertionSort idDesc).take 50).map projectLog)

/-- The route `/api/v1/logs` declares no query parameter, so a
client-supplied `limit` is ignored by the framework and the handler body is
`get_logs` unchanged for every requested limit. -/
def recentWithLimit (_limit : Nat) (store : Store) : List LogEntry :=
  get_logs store

/-! Concrete states and oracles used to instantiate the theorems. -/

/-- A small server state: empty table, two live subscribers. -/
def stW : ServerState := ⟨⟨[], 1⟩, none, [3, 8]⟩

/-- Oracles for a run whose classifier raises. -/
def envClassFail : Env :=
  ⟨fun _ => none, "Auth-Service", "2026-02-03 04:05:06", true, true, true, fun _ => true⟩

/-- Oracles for a run whose classifier succeeds but whose commit raises. -/
def envStoreFail : Env :=
  ⟨fun _ => some ("high", 9/10), "Auth-Service", "2026-02-03 04:05:06", false, true, true,
    fun _ => true⟩

/-- Oracles for a run that persists but whose Redis `set` raises. -/
def envCacheFail : Env :=
  ⟨fun _ => some ("low", 3/5), "Database-Cluster", "2026-02-03 04:05:06", true, true, false,
    fun _ => true⟩

/-- Oracles for a fully successful run with the classifier stub
returning `("high", 0.93)`. -/
def envHigh : Env :=
  ⟨fun _ => some ("high", 93/100), "Database-Cluster", "2026-02-03 04:05:06", true, true, true,
    fun _ => true⟩

/-- A send oracle under which exactly subscriber `1` fails delivery. -/
def sendFail1 : Nat → Bool := fun c => decide (c ≠ 1)

/-- A two-row store with distinct ids. -/
def storeW : Store :=
  ⟨[⟨1, "a", "high", "Auth-Service", 1, 0, "t1"⟩,
    ⟨2, "b", "low", "Payment-Gateway", 1, 0, "t2"⟩], 3⟩

/-! Helper lemmas about the broadcast machine and the registry. -/

/-- Running the loop's remaining delivery steps over an uninterfered live
list visits exactly the elements from the current index on: successes land
in `delivered`, failures in `disconnected`, and the live list is untouched. -/
theorem bRun_replicate_deliver (send : Nat → Bool) (conns : List Nat) :
    ∀ (n i : Nat) (dis del : List Nat), i + n = conns.length →
    bRun send (List.replicate n BEvent.deliver) ⟨conns, i, dis, del⟩ =
      ⟨conns, conns.length,
        dis ++ ((conns.drop i).filter fun c => !(send c)),
        del ++ ((conns.drop i).filter fun c => send c)⟩ := by
  intro n
  induction n with
  | zero =>
    intro i dis del h
    have hi : i = conns.length := by omega
    subst hi
    simp [bRun]
  | succ n ih =>
    intro i dis del h
    have hi : i < conns.length := by omega
    have hdrop : conns.drop i = conns[i] :: conns.drop (i + 1) :=
      List.drop_eq_getElem_cons hi
    have hcons : bRun send (List.replicate (n + 1) BEvent.deliver) ⟨conns, i, dis, del⟩ =
        bRun send (List.replicate n BEvent.deliver)
          (bStep send ⟨conns, i, dis, del⟩ BEvent.deliver) := by
      rw [List.replicate_succ]
      rfl
    rw [hcons]
    by_cases hsend : send conns[i] = true
    · have hstep : bStep send ⟨conns, i, dis, del⟩ BEvent.deliver =
          ⟨conns, i + 1, dis, del ++ [conns[i]]⟩ := by
        simp [bStep, hi, hsend]
      have hf1 : ((conns.drop i).filter fun c => !(send c)) =
          ((conns.drop (i + 1)).filter fun c => !(send c)) := by
        rw [hdrop, List.filter_cons]
        simp [hsend]
      have hf2 : ((conns.drop i).filter fun c => send c) =
          conns[i] :: ((conns.drop (i + 1)).filter fun c => send c) := by
        rw [hdrop, List.filter_cons]
        simp [hsend]
      rw [hstep, ih (i + 1) dis (del ++ [conns[i]]) (by omega), hf1, hf2]
      simp [List.append_assoc]
    · have hsend2 : send conns[i] = false := by
        revert hsend
        cases send conns[i] <;> simp
      have hstep : bStep send ⟨conns, i, dis, del⟩ BEvent.deliver =
          ⟨conns, i + 1, dis ++ [conns[i]], del⟩ := by
        simp [bStep, hi, hsend2]
      have hf1 : ((conns.drop i).filter fun c => !(send c)) =
          conns[i] :: ((conns.drop (i + 1)).filter fun c => !(send c)) := by
        rw [hdrop, List.filter_cons]
        simp [hsend2]
      have hf2 : ((conns.drop i).filter fun c => send c) =
          ((conns.drop (i + 1)).filter fun c => send c) := by
        rw [hdrop, List.filter_cons]
        simp [hsend2]
      rw [hstep, ih (i + 1) (dis ++ [conns[i]]) del (by omega), hf1, hf2]
      simp [List.append_assoc]

/-- Closed form of an uninterfered `broadcast` call: the delivery pass is the
send-filter of the pass-start list and the reconcile phase disconnects
exactly the failed subscribers. -/
theorem broadcast_eq (send : Nat → Bool) (conns : List Nat) :
    broadcast send conns =
      ⟨((conns.filter fun c => !(send c)).foldl (fun cs c => disconnect c cs) conns),
        conns.length,
        (conns.filter fun c => !(send c)),
        (conns.filter fun c => send c)⟩ := by
  unfold broadcast
  rw [bRun_replicate_deliver send conns conns.length 0 [] [] (by omega)]
  simp [bFinish]

/-- Membership after one `disconnect` on a duplicate-free registry. -/
theorem mem_disconnect {w c : Nat} {conns : List Nat} (h : conns.Nodup) :
    w ∈ disconnect c conns ↔ w ∈ conns ∧ w ≠ c := by
  unfold disconnect
  by_cases hc : c ∈ conns
  · rw [if_pos hc, h.mem_erase_iff]
    tauto
  · rw [if_neg hc]
    constructor
    · intro hw
      exact ⟨hw, fun hwc => hc (hwc ▸ hw)⟩
    · exact fun hw => hw.1

/-- `disconnect` preserves freedom from duplicates. -/
theorem nodup_disconnect {c : Nat} {conns : List Nat} (h : conns.Nodup) :
    (disconnect c conns).Nodup := by
  unfold disconnect
  split
  · exact h.erase c
  · exact h

/-- Membership after the reconcile fold: on a duplicate-free registry, the
survivors are exactly the members not collected for removal. -/
theorem mem_foldl_disconnect {w : Nat} :
    ∀ (ds conns : List Nat), conns.Nodup →
      (w ∈ ds.foldl (fun cs c => disconnect c cs) conns ↔ w ∈ conns ∧ w ∉ ds) := by
  intro ds
  induction ds with
  | nil =>
    intro conns _
    simp
  | cons d ds ih =>
    intro conns h
    rw [List.foldl_cons, ih (disconnect d conns) (nodup_disconnect h), mem_disconnect h,
      List.mem_cons]
    tauto

/-- Closed form of a `predict_log` run in which classification and the
commit both succeed. -/
theorem predict_log_success_eq (env : Env) (st : ServerState) (message p : String) (q : ℚ)
    (hc : env.classify message = some (p, q)) (hs : env.storeOk = true) :
    predict_log env st message =
      ⟨⟨⟨st.store.rows ++ [⟨st.store.nextId, message, p, env.source, q, 0, env.timestamp⟩],
          st.store.nextId + 1⟩,
        (if env.redisAvailable && env.cacheOk then
            some (serialize ⟨st.store.nextId, message, p, round2 q, env.source, env.timestamp⟩)
          else st.cache),
        (broadcast env.send st.conns).conns⟩,
        some (serialize ⟨st.store.nextId, message, p, round2 q, env.source, env.timestamp⟩),
        (broadcast env.send st.conns).delivered,
        Except.ok ⟨"success", ⟨st.store.nextId, message, p, round2 q, env.source,
          env.timestamp⟩⟩⟩ := by
  simp [predict_log, hc, hs]

/-! Claim theorems. -/

/-- C1: if the store insert fails for a submitted message, `predict_log`
raises the `500 "Database error"` failure (the `PersistenceFailed` outcome),
the whole server state — cache slot, registry, and rolled-back store — is
unchanged, no broadcast is attempted, nothing is delivered, and `get_logs`
returns exactly what it returned before the submission. -/
theorem predict_log_store_failure (env : Env) (st : ServerState) (message : String)
    (hc : ∃ pc : String × ℚ, env.classify message = some pc)
    (hs : env.storeOk = false) :
    (predict_log env st message).result = Except.error ⟨500, "Database error"⟩ ∧
    (predict_log env st message).state = st ∧
    (predict_log env st message).broadcastMsg = none ∧
    (predict_log env st message).delivered = [] ∧
    get_logs (predict_log env st message).state.store = get_logs st.store := by
  obtain ⟨⟨p, c⟩, hpc⟩ := hc
  simp [predict_log, hpc, hs]

/-- Witness for C1 at concrete oracles and state. -/
theorem predict_log_store_failure_witness :
    (predict_log envStoreFail stW "db down").result = Except.error ⟨500, "Database error"⟩ ∧
    (predict_log envStoreFail stW "db down").state = stW ∧
    (predict_log envStoreFail stW "db down").broadcastMsg = none ∧
    (predict_log envStoreFail stW "db down").delivered = [] ∧
    get_logs (predict_log envStoreFail stW "db down").state.store = get_logs stW.store :=
  predict_log_store_failure envStoreFail stW "db down" ⟨("high", 9/10), rfl⟩ rfl

/-- C2: if the classifier raises, `predict_log` aborts at once with the
`500 "Prediction failed"` failure (the `ClassificationFailed` outcome): the
store receives no insert, the cache slot is untouched, no broadcast is
attempted and nothing is delivered. -/
theorem predict_log_classifier_failure (env : Env) (st : ServerState) (message : String)
    (hc : env.classify message = none) :
    (predict_log env st message).result = Except.error ⟨500, "Prediction failed"⟩ ∧
    (predict_log env st message).state.store = st.store ∧
    (predict_log env st message).state.cache = st.cache ∧
    (predict_log env st message).state = st ∧
    (predict_log env st message).broadcastMsg = none ∧
    (predict_log env st message).delivered = [] := by
  simp [predict_log, hc]

/-- Witness for C2 at concrete oracles and state. -/
theorem predict_log_classifier_failure_witness :
    (predict_log envClassFail stW "???").result = Except.error ⟨500, "Prediction failed"⟩ ∧
    (predict_log envClassFail stW "???").state.store = stW.store ∧
    (predict_log envClassFail stW "???").state.cache = stW.cache ∧
    (predict_log envClassFail stW "???").state = stW ∧
    (predict_log envClassFail stW "???").broadcastMsg = none ∧
    (predict_log envClassFail stW "???").delivered = [] :=
  predict_log_classifier_failure envClassFail stW "???" rfl

/-- C3: when exactly subscriber `k` of a duplicate-free registry fails
delivery, `broadcast` still delivers to every other subscriber, collects `k`
for eviction exactly once, and `k` is gone from the live set when the call
returns (the call itself is a total function: no exception escapes). -/
theorem broadcast_isolates_failure (send : Nat → Bool) (conns : List Nat) (k : Nat)
    (hnd : conns.Nodup) (hk : k ∈ conns) (hfail : send k = false)
    (hok : ∀ j ∈ conns, j ≠ k → send j = true) :
    (∀ j ∈ conns, j ≠ k → j ∈ (broadcast send conns).delivered) ∧
    (broadcast send conns).disconnected = [k] ∧
    k ∉ (broadcast send conns).conns := by
  have hmemk : k ∈ (conns.filter fun c => !(send c)) := by
    rw [List.mem_filter, hfail]
    exact ⟨hk, rfl⟩
  have hfilter : (conns.filter fun c => !(send c)) = [k] := by
    have hall : ∀ b ∈ (conns.filter fun c => !(send c)), b = k := by
      intro b hb
      rw [List.mem_filter] at hb
      by_contra hbk
      have hbt := hok b hb.1 hbk
      rw [hbt] at hb
      simp at hb
    have hrep := List.eq_replicate_of_mem hall
    have hnd2 : (conns.filter fun c => !(send c)).Nodup := hnd.filter _
    have hlen1 : (conns.filter fun c => !(send c)).length ≤ 1 := by
      rw [hrep] at hnd2
      exact List.nodup_replicate.mp hnd2
    have hlenpos : 0 < (conns.filter fun c => !(send c)).length :=
      List.length_pos_of_mem hmemk
    have hlen : (conns.filter fun c => !(send c)).length = 1 := by omega
    rw [hrep, hlen]
    rfl
  refine ⟨?_, ?_, ?_⟩
  · intro j hj hjk
    rw [broadcast_eq]
    show j ∈ (conns.filter fun c => send c)
    rw [List.mem_filter]
    exact ⟨hj, hok j hj hjk⟩
  · rw [broadcast_eq]
    exact hfilter
  · rw [broadcast_eq]
    show k ∉ ((conns.filter fun c => !(send c)).foldl (fun cs c => disconnect c cs) conns)
    rw [mem_foldl_disconnect _ conns hnd]
    intro hcontra
    exact hcontra.2 hmemk

/-- Witness for C3: three subscribers, subscriber `1` fails. -/
theorem broadcast_isolates_failure_witness :
    (∀ j ∈ ([0, 1, 2] : List Nat), j ≠ 1 → j ∈ (broadcast sendFail1 [0, 1, 2]).delivered) ∧
    (broadcast sendFail1 [0, 1, 2]).disconnected = [1] ∧
    1 ∉ (broadcast sendFail1 [0, 1, 2]).conns :=
  broadcast_isolates_failure sendFail1 [0, 1, 2] 1 (by decide) (by decide) (by decide)
    (by decide)

/-- C4 (amended): `broadcast`'s own delivery steps never structurally mutate
the live list — failures are collected and the removals are applied only by
the reconcile phase after the pass, and an uninterfered pass delivers exactly
to the send-successes of the pass-start list; but the loop iterates the live
list itself rather than a snapshot, so (see the counterexample) a subscriber
registered mid-pass can receive that same broadcast. -/
theorem broadcast_deferred_removal (send : Nat → Bool) (conns : List Nat) :
    (∀ st : BState, (bStep send st BEvent.deliver).conns = st.conns) ∧
    (broadcast send conns).delivered = (conns.filter fun c => send c) ∧
    (broadcast send conns).conns =
      ((conns.filter fun c => !(send c)).foldl (fun cs c => disconnect c cs) conns) := by
  refine ⟨?_, ?_, ?_⟩
  · intro st
    simp only [bStep]
    split
    · split <;> rfl
    · rfl
  · rw [broadcast_eq]
  · rw [broadcast_eq]

/-- Counterexample to C4 as stated: starting a pass over the single live
subscriber `0`, a `connect` of subscriber `5` interleaved after the first
awaited send puts `5` into the same pass's deliveries — the loop does not
iterate a stable snapshot taken at the start of the call. -/
theorem broadcast_midpass_register_delivered :
    5 ∉ (⟨[0], 0, [], []⟩ : BState).conns ∧
    5 ∈ (bRun (fun _ => true) [BEvent.deliver, BEvent.register 5, BEvent.deliver]
        ⟨[0], 0, [], []⟩).delivered := by
  decide

/-- C5: the read side returns at most 50 incidents whatever limit a client
asks for (the route declares no limit parameter, so any requested limit is
ignored), and the result is strictly descending by id (newest first),
provided the stored ids are pairwise distinct as the store's autoincrement
key guarantees. -/
theorem get_logs_cap_and_order (limit : Nat) (store : Store)
    (hids : (store.rows.map Incident.id).Nodup) :
    (recentWithLimit limit store).length ≤ 50 ∧
    List.Pairwise (fun a b => b.id < a.id) (recentWithLimit limit store) := by
  constructor
  · unfold recentWithLimit get_logs
    rw [List.length_map]
    exact List.length_take_le 50 _
  · unfold recentWithLimit get_logs
    have hsorted : List.Pairwise idDesc (store.rows.insertionSort idDesc) :=
      List.sorted_insertionSort idDesc store.rows
    have hperm : List.Perm (store.rows.insertionSort idDesc) store.rows :=
      List.perm_insertionSort idDesc store.rows
    have hnd : ((store.rows.insertionSort idDesc).map Incident.id).Nodup :=
      ((hperm.map Incident.id).nodup_iff).mpr hids
    have hpne : List.Pairwise (fun a b : Incident => a.id ≠ b.id)
        (store.rows.insertionSort idDesc) := List.pairwise_map.mp hnd
    have hlt : List.Pairwise (fun a b : Incident => b.id < a.id)
        (store.rows.insertionSort idDesc) :=
      (hsorted.and hpne).imp (fun hab => lt_of_le_of_ne hab.1 (Ne.symm hab.2))
    have htake : List.Pairwise (fun a b : Incident => b.id < a.id)
        ((store.rows.insertionSort idDesc).take 50) :=
      List.Pairwise.sublist (List.take_sublist 50 _) hlt
    rw [List.pairwise_map]
    exact htake.imp (fun h => h)

/-- Witness for C5: a two-row store and an oversized requested limit. -/
theorem get_logs_cap_and_order_witness :
    (recentWithLimit 1000 storeW).length ≤ 50 ∧
    List.Pairwise (fun a b => b.id < a.id) (recentWithLimit 1000 storeW) :=
  get_logs_cap_and_order 1000 storeW (by decide)

/-- C6: once the incident is persisted, a cache-write failure is swallowed:
`predict_log` still returns the success body, the cache slot keeps its old
value, and the broadcast step still runs with the serialized result. -/
theorem predict_log_cache_failure_swallowed (env : Env) (st : ServerState)
    (message p : String) (q : ℚ)
    (hc : env.classify message = some (p, q)) (hs : env.storeOk = true)
    (hcache : env.cacheOk = false) :
    (∃ rd : ResponseData, (predict_log env st message).result = Except.ok ⟨"success", rd⟩ ∧
      (predict_log env st message).broadcastMsg = some (serialize rd)) ∧
    (predict_log env st message).state.cache = st.cache ∧
    (predict_log env st message).delivered = (broadcast env.send st.conns).delivered := by
  rw [predict_log_success_eq env st message p q hc hs]
  refine ⟨⟨⟨st.store.nextId, message, p, round2 q, env.source, env.timestamp⟩, rfl, rfl⟩,
    ?_, rfl⟩
  show (if env.redisAvailable && env.cacheOk then _ else st.cache) = st.cache
  rw [hcache, Bool.and_false, if_neg]
  exact Bool.false_ne_true

/-- Witness for C6 at concrete oracles and state. -/
theorem predict_log_cache_failure_swallowed_witness :
    (∃ rd : ResponseData,
      (predict_log envCacheFail stW "disk almost full").result = Except.ok ⟨"success", rd⟩ ∧
      (predict_log envCacheFail stW "disk almost full").broadcastMsg = some (serialize rd)) ∧
    (predict_log envCacheFail stW "disk almost full").state.cache = stW.cache ∧
    (predict_log envCacheFail stW "disk almost full").delivered =
      (broadcast envCacheFail.send stW.conns).delivered :=
  predict_log_cache_failure_swallowed envCacheFail stW "disk almost full" "low" (3/5)
    rfl rfl rfl

/-- C7: when the classifier returns `("high", 0.93)`, the commit succeeds and
every send succeeds, `predict_log` returns the success body whose data part
is `\x7bid, message, priority, confidence, source, timestamp\x7d` with
priority `"high"`, confidence `0.93` (2-decimal rounding leaves it fixed) and
the freshly store-assigned id, and that same serialized payload is handed to
`broadcast` and received by every registered subscriber before the call
returns. -/
theorem predict_log_success_scenario (env : Env) (st : ServerState) (message : String)
    (hc : env.classify message = some ("high", 93/100)) (hs : env.storeOk = true)
    (hsend : ∀ c ∈ st.conns, env.send c = true) :
    (predict_log env st message).result =
      Except.ok ⟨"success",
        ⟨st.store.nextId, message, "high", 93/100, env.source, env.timestamp⟩⟩ ∧
    (predict_log env st message).broadcastMsg =
      some (serialize ⟨st.store.nextId, message, "high", 93/100, env.source, env.timestamp⟩) ∧
    (∀ c ∈ st.conns, c ∈ (predict_log env st message).delivered) := by
  have hrd : round2 (93/100 : ℚ) = 93/100 := by
    norm_num [round2, roundHalfEven]
  rw [predict_log_success_eq env st message "high" (93/100) hc hs, hrd]
  refine ⟨rfl, rfl, ?_⟩
  intro c hcmem
  show c ∈ (broadcast env.send st.conns).delivered
  rw [broadcast_eq]
  show c ∈ (st.conns.filter fun c => env.send c)
  rw [List.mem_filter]
  exact ⟨hcmem, hsend c hcmem⟩

/-- Witness for C7 at concrete oracles and state. -/
theorem predict_log_success_scenario_witness :
    (predict_log envHigh stW "Database connection timeout").result =
      Except.ok ⟨"success",
        ⟨stW.store.nextId, "Database connection timeout", "high", 93/100,
          envHigh.source, envHigh.timestamp⟩⟩ ∧
    (predict_log envHigh stW "Database connection timeout").broadcastMsg =
      some (serialize ⟨stW.store.nextId, "Database connection timeout", "high", 93/100,
        envHigh.source, envHigh.timestamp⟩) ∧
    (∀ c ∈ stW.conns,
      c ∈ (predict_log envHigh stW "Database connection timeout").delivered) :=
  predict_log_success_scenario envHigh stW "Database connection timeout" rfl rfl
    (by decide)

/-- C9: the two fatal outcomes are distinguishable by the caller — a
classifier failure yields the `500 "Prediction failed"` exception, a store
failure yields the `500 "Database error"` exception, and the two typed
failures are distinct values. -/
theorem submit_failures_distinct (env1 env2 : Env) (st1 st2 : ServerState)
    (m1 m2 : String)
    (h1 : env1.classify m1 = none)
    (h2 : ∃ pc : String × ℚ, env2.classify m2 = some pc)
    (h3 : env2.storeOk = false) :
    (predict_log env1 st1 m1).result = Except.error ⟨500, "Prediction failed"⟩ ∧
    (predict_log env2 st2 m2).result = Except.error ⟨500, "Database error"⟩ ∧
    (⟨500, "Prediction failed"⟩ : HTTPException) ≠ ⟨500, "Database error"⟩ := by
  obtain ⟨⟨p, c⟩, hpc⟩ := h2
  refine ⟨by simp [predict_log, h1], by simp [predict_log, hpc, h3], ?_⟩
  intro hcontra
  have := congrArg HTTPException.detail hcontra
  simp at this

/-- Witness for C9 at concrete oracles and states. -/
theorem submit_failures_distinct_witness :
    (predict_log envClassFail stW "m1").result = Except.error ⟨500, "Prediction failed"⟩ ∧
    (predict_log envStoreFail stW "m2").result = Except.error ⟨500, "Database error"⟩ ∧
    (⟨500, "Prediction failed"⟩ : HTTPException) ≠ ⟨500, "Database error"⟩ :=
  submit_failures_distinct envClassFail envStoreFail stW stW "m1" "m2" rfl
    ⟨("high", 9/10), rfl⟩ rfl

/-- C10: on a persisted submission the stored row keeps the classifier's
full-precision confidence, and `get_logs` projects that stored value
unchanged (`projectLog`), while the body that `predict_log` returns, caches
and broadcasts carries the 2-decimal rounding of it; the two can differ, as
`round2` moves 0.937 to 0.94. -/
theorem confidence_full_precision_in_store (env : Env) (st : ServerState)
    (message p : String) (q : ℚ)
    (hc : env.classify message = some (p, q)) (hs : env.storeOk = true) :
    (∃ inc : Incident,
      (predict_log env st message).state.store.rows = st.store.rows ++ [inc] ∧
      inc.confidence_score = q ∧ (projectLog inc).confidence = q) ∧
    (∃ rd : ResponseData,
      (predict_log env st message).result = Except.ok ⟨"success", rd⟩ ∧
      rd.confidence = round2 q ∧
      (predict_log env st message).broadcastMsg = some (serialize rd)) ∧
    round2 (937/1000 : ℚ) ≠ (937/1000 : ℚ) := by
  rw [predict_log_success_eq env st message p q hc hs]
  refine ⟨⟨⟨st.store.nextId, message, p, env.source, q, 0, env.timestamp⟩, rfl, rfl, rfl⟩,
    ⟨⟨st.store.nextId, message, p, round2 q, env.source, env.timestamp⟩, rfl, rfl, rfl⟩,
    ?_⟩
  norm_num [round2, roundHalfEven]

/-- Witness for C10 at concrete oracles and state. -/
theorem confidence_full_precision_in_store_witness :
    (∃ inc : Incident,
      (predict_log envHigh stW "cpu pegged").state.store.rows = stW.store.rows ++ [inc] ∧
      inc.confidence_score = 93/100 ∧ (projectLog inc).confidence = 93/100) ∧
    (∃ rd : ResponseData,
      (predict_log envHigh stW "cpu pegged").result = Except.ok ⟨"success", rd⟩ ∧
      rd.confidence = round2 (93/100) ∧
      (predict_log envHigh stW "cpu pegged").broadcastMsg = some (serialize rd)) ∧
    round2 (937/1000 : ℚ) ≠ (937/1000 : ℚ) :=
  confidence_full_precision_in_store envHigh stW "cpu pegged" "high" (93/100) rfl rfl

/-- C8: `disconnect` is idempotent removal — on a handle not in the live set
it is a no-op (no error: it is total), it never changes any other
subscriber's membership, and on a duplicate-free registry removing the same
handle twice equals removing it once. -/
theorem disconnect_noop_idempotent (conns : List Nat) (w : Nat) :
    (w ∉ conns → disconnect w conns = conns) ∧
    (∀ v, v ≠ w → (v ∈ disconnect w conns ↔ v ∈ conns)) ∧
    (conns.Nodup → disconnect w (disconnect w conns) = disconnect w conns) := by
  refine ⟨?_, ?_, ?_⟩
  · intro hw
    unfold disconnect
    rw [if_neg hw]
  · intro v hv
    unfold disconnect
    split
    · exact List.mem_erase_of_ne hv
    · exact Iff.rfl
  · intro hnd
    by_cases hw : w ∈ conns
    · have h1 : disconnect w conns = conns.erase w := by
        unfold disconnect
        rw [if_pos hw]
      have h2 : w ∉ conns.erase w := hnd.not_mem_erase
      rw [h1]
      unfold disconnect
      rw [if_neg h2]
    · have h1 : disconnect w conns = conns := by
        unfold disconnect
        rw [if_neg hw]
      rw [h1, h1]

/-- Witness for C8: handle `1` absent from the registry `[0, 2]`. -/
theorem disconnect_noop_idempotent_witness :
    disconnect 1 [0, 2] = [0, 2] ∧
    (5 ∈ disconnect 1 [0, 2] ↔ 5 ∈ ([0, 2] : List Nat)) ∧
    disconnect 1 (disconnect 1 [0, 2]) = disconnect 1 [0, 2] :=
  ⟨(disconnect_noop_idempotent [0, 2] 1).1 (by decide),
   (disconnect_noop_idempotent [0, 2] 1).2.1 5 (by decide),
   (disconnect_noop_idempotent [0, 2] 1).2.2 (by decide)⟩
